import Mathlib

/-!
A shallow embedding of the Instun/did-key library (src/lib/suites.js,
src/lib/browser.js) together with proofs about its suite dispatch,
identity codec, credential issuance, derivation and presentation layers.

Strings from the JavaScript source are modelled as `List Char` where
character-level operations (split, substring, slice) matter, and as
`String` where only whole-string equality matters (cryptosuite names).
Fallible JavaScript code (throw) is modelled with `Except Err`.
External collaborators (multikey constructors, DataIntegrityProof,
jsonld canonicalisation, fetch) are modelled at their interface
boundary and each such point is marked in its doc comment.
-/

namespace DidKey

/-- JavaScript strings at character granularity. -/
abbrev Str := List Char

/-- Embeds JavaScript `s.split(sep)` for a one-character separator.
`splitOnChar sep s` always returns at least one (possibly empty) segment,
exactly as `String.prototype.split` does. -/
def splitOnChar (sep : Char) : Str → List Str
  | [] => [[]]
  | c :: cs =>
    match splitOnChar sep cs with
    | [] => [[]]
    | h :: t => if c = sep then [] :: h :: t else (c :: h) :: t

/-- Result of `parseDid` in src/lib/suites.js: the destructured
`{ didAuthority, keyIdFragment, publicKeyMultibase }`. -/
structure ParsedDid where
  didAuthority : Str
  keyIdFragment : Option Str
  publicKeyMultibase : Str
deriving DecidableEq

/-- Embeds `parseDid` (src/lib/suites.js lines 180-185):
`const [didAuthority, keyIdFragment] = did.split('#')` followed by
`didAuthority.substring('did:key:'.length)`.  Note the source performs
no validation of the `did:key:` header and can never throw. -/
def parseDid (did : Str) : ParsedDid :=
  let parts := splitOnChar '#' did
  let didAuthority := parts.headD []
  { didAuthority := didAuthority
    keyIdFragment := parts[1]?
    publicKeyMultibase := didAuthority.drop 8 }

/-- The six key families of the `suites` table in src/lib/suites.js. -/
inductive Family where
  | p256
  | p384
  | p521
  | sm2
  | ed25519
  | bls12381
deriving DecidableEq

/-- The error outcomes of the embedded code, one constructor per
distinct throw site (plus `typeError` for JavaScript TypeErrors raised
by property access on `undefined`). -/
inductive Err where
  | invalidDid
  | mismatchedDid
  | unsupportedMultikeyHeader (header : Str)
  | ecdsaSdOnlyP256
  | ed25519NoSelectiveDisclosure
  | blsRequiresSelectiveDisclosure
  | unsupportedCryptosuite (name : String)
  | documentResolutionFailure
  | typeError
deriving DecidableEq

/-- Embeds the key set of the `suites` table (src/lib/suites.js lines
60-103): the multibase multikey headers `zDn`, `z82`, `z2J`, `zEP`,
`z6M`, `zUC` keyed to their families. -/
def suites (header : Str) : Option Family :=
  if header = "zDn".data then some .p256
  else if header = "z82".data then some .p384
  else if header = "z2J".data then some .p521
  else if header = "zEP".data then some .sm2
  else if header = "z6M".data then some .ed25519
  else if header = "zUC".data then some .bls12381
  else none

/-- A key-shaped record as passed to the multikey `from` constructors:
the object built inside `getKeyPair` (src/lib/suites.js lines 193-216),
with `id` / `controller` possibly absent. -/
structure KeyRecord where
  id : Option Str
  controller : Option Str
  publicKeyMultibase : Str
deriving DecidableEq

/-- The key pair handed back by the external multikey `from`
constructors, tagged with the family that constructed it. -/
structure KeyPair where
  family : Family
  id : Option Str
  controller : Option Str
  publicKeyMultibase : Str
deriving DecidableEq

/-- Models the external multikey `from` constructors
(EcdsaMultikey.from, Ed25519Multikey.from, SM2Multikey.from,
bls12381Multikey.from) at their interface boundary: they build key
material from `publicKeyMultibase` and preserve `id` and `controller`. -/
def suiteFrom (f : Family) (k : KeyRecord) : KeyPair :=
  { family := f
    id := k.id
    controller := k.controller
    publicKeyMultibase := k.publicKeyMultibase }

/-- Embeds `get_suite` (src/lib/suites.js lines 156-164):
`key.publicKeyMultibase.slice(0, 3)` looked up in the `suites` table,
throwing on an unregistered header. -/
def get_suite (k : KeyRecord) : Except Err Family :=
  match suites (k.publicKeyMultibase.take 3) with
  | some f => .ok f
  | none => .error (.unsupportedMultikeyHeader (k.publicKeyMultibase.take 3))

/-- Embeds `fromMultibase` (src/lib/suites.js lines 171-173):
`get_suite(key).from(key)`. -/
def fromMultibase (k : KeyRecord) : Except Err KeyPair := do
  let f ← get_suite k
  .ok (suiteFrom f k)

/-- A caller-supplied key object, as spread by `getKeyPair`
(`key = {...did}`): the `id` is the DID, `publicKeyMultibase` may be
absent. -/
structure KeyInput where
  id : Str
  controller : Option Str
  publicKeyMultibase : Option Str
deriving DecidableEq

/-- The `did` argument of `getKeyPair`: a DID string or a key object. -/
inductive DidOrKey where
  | didStr (s : Str)
  | keyObj (k : KeyInput)
deriving DecidableEq

/-- Embeds `getKeyPair` (src/lib/suites.js lines 193-216).  For a
string, a key record is rebuilt from the parsed DID; for an object, the
guard is the JavaScript falsy test `!key.publicKeyMultibase`, which is
true both for an absent field and for the empty string — in either case
the field is overwritten with the multibase parsed from `id`.  Only a
present, non-empty `publicKeyMultibase` is compared against the parsed
one, and a disagreement throws `'Mismatched DID'` before any
key-material construction. -/
def getKeyPair : DidOrKey → Except Err KeyPair
  | .didStr did =>
    let p := parseDid did
    fromMultibase { id := some did, controller := some p.didAuthority,
                    publicKeyMultibase := p.publicKeyMultibase }
  | .keyObj k =>
    let p := parseDid k.id
    match k.publicKeyMultibase with
    | none =>
      fromMultibase { id := some k.id, controller := k.controller,
                      publicKeyMultibase := p.publicKeyMultibase }
    | some pkm =>
      if pkm = [] then
        fromMultibase { id := some k.id, controller := k.controller,
                        publicKeyMultibase := p.publicKeyMultibase }
      else if pkm = p.publicKeyMultibase then
        fromMultibase { id := some k.id, controller := k.controller,
                        publicKeyMultibase := pkm }
      else .error .mismatchedDid

/-- The concrete signing cryptosuites the `suites` table selectors can
return (src/lib/suites.js lines 39-103). -/
inductive CryptosuiteTag where
  | ecdsa2019sign
  | ecdsaSd2023sign
  | sm2_2023sign
  | sm2Sd2023sign
  | eddsa2022sign
  | bbs2023sign
deriving DecidableEq

/-- The options object reaching the cryptosuite selectors through
`signer_suite` (the caller's options of `issueCredential` /
`signPresentation`, shallow-copied).  `useSelectiveDisclosure` is the
boolean flag the selectors test; `mandatoryPointers` travels along but
is never inspected by the selectors. -/
structure SignOptions where
  key : DidOrKey
  useSelectiveDisclosure : Bool
  mandatoryPointers : Option (List String)
deriving DecidableEq

/-- The `publicKeyMultibase` property of `options.key` as JavaScript
sees it: `undefined` when the key was given as a DID string. -/
def keyPkmOf : DidOrKey → Option Str
  | .didStr _ => none
  | .keyObj k => k.publicKeyMultibase

/-- Embeds `ecdsa_createCryptosuite` (src/lib/suites.js lines 39-47):
tests `options.useSelectiveDisclosure`; when set, requires the key's
multibase header to be `zDn` and selects ecdsa-sd-2023, otherwise
returns plain ecdsa-2019.  Accessing `.slice` on an absent
`options.key.publicKeyMultibase` is a JavaScript TypeError. -/
def ecdsa_createCryptosuite (options : SignOptions) : Except Err CryptosuiteTag :=
  if options.useSelectiveDisclosure then
    match keyPkmOf options.key with
    | none => .error .typeError
    | some pkm =>
      if pkm.take 3 = "zDn".data then .ok .ecdsaSd2023sign
      else .error .ecdsaSdOnlyP256
  else .ok .ecdsa2019sign

/-- Embeds the `cryptosuite` selector of each `suites` table entry
(src/lib/suites.js lines 60-103): the three ECDSA families share
`ecdsa_createCryptosuite`; SM2 selects sm2-sd-2023 or sm2-2023 on the
flag; Ed25519 throws when the flag is set; BLS12-381 throws when the
flag is not set. -/
def suiteCryptosuite (f : Family) (options : SignOptions) : Except Err CryptosuiteTag :=
  match f with
  | .p256 => ecdsa_createCryptosuite options
  | .p384 => ecdsa_createCryptosuite options
  | .p521 => ecdsa_createCryptosuite options
  | .sm2 =>
    if options.useSelectiveDisclosure then .ok .sm2Sd2023sign
    else .ok .sm2_2023sign
  | .ed25519 =>
    if options.useSelectiveDisclosure then .error .ed25519NoSelectiveDisclosure
    else .ok .eddsa2022sign
  | .bls12381 =>
    if options.useSelectiveDisclosure then .ok .bbs2023sign
    else .error .blsRequiresSelectiveDisclosure

/-- The signing suite built by `signer_suite`: a DataIntegrityProof
(external) whose `verificationMethod` is the signer's id, modelled at
the interface boundary as the key pair's id. -/
structure SignSuite where
  verificationMethod : Option Str
  cryptosuite : CryptosuiteTag
deriving DecidableEq

/-- Embeds `signer_suite` (src/lib/suites.js lines 223-229):
`getKeyPair(options.key)` then
`new DataIntegrityProof({signer: keyPair.signer(), cryptosuite:
get_suite(keyPair).cryptosuite(options)})`.  The external
DataIntegrityProof takes its `verificationMethod` from the signer's id. -/
def signer_suite (options : SignOptions) : Except Err SignSuite := do
  let kp ← getKeyPair options.key
  let f ← get_suite { id := kp.id, controller := kp.controller,
                      publicKeyMultibase := kp.publicKeyMultibase }
  let cs ← suiteCryptosuite f options
  .ok { verificationMethod := kp.id, cryptosuite := cs }

/-- The verification suites of the `verifers` registry
(src/lib/suites.js lines 122-129), one constructor per registered
DataIntegrityProof instance. -/
inductive VerifierSuite where
  | ecdsa2019verify
  | sm2_2023verify
  | eddsa2022verify
  | bbs2023verify
  | ecdsaSd2023verify
  | sm2Sd2023verify
deriving DecidableEq

/-- The six registered cryptosuite names, the key set of `verifers`. -/
def verifierNames : List String :=
  ["ecdsa-2019", "sm2-2023", "eddsa-2022", "bbs-2023", "ecdsa-sd-2023", "sm2-sd-2023"]

/-- Embeds the `verifers` registry (src/lib/suites.js lines 122-129):
the map from a proof's declared cryptosuite name to its pre-built
DataIntegrityProof verifier. -/
def verifers (name : String) : Option VerifierSuite :=
  if name = "ecdsa-2019" then some .ecdsa2019verify
  else if name = "sm2-2023" then some .sm2_2023verify
  else if name = "eddsa-2022" then some .eddsa2022verify
  else if name = "bbs-2023" then some .bbs2023verify
  else if name = "ecdsa-sd-2023" then some .ecdsaSd2023verify
  else if name = "sm2-sd-2023" then some .sm2Sd2023verify
  else none

/-- A data-integrity proof as read by the dispatch code: only the
fields the embedded code inspects. -/
structure Proof where
  cryptosuite : String
  challenge : Option Str
deriving DecidableEq

/-- A signed document as seen by `jsigs.verify`: a document carrying a
proof. -/
structure Document where
  proof : Proof
deriving DecidableEq

/-- The options of the overridden `jsigs.verify`: only the `suite`
field takes part in dispatch. -/
structure VerifyOptions where
  suite : Option VerifierSuite
deriving DecidableEq

/-- Embeds the suite-resolution step of the overridden `jsigs.verify`
(src/lib/suites.js lines 135-146): with no caller-supplied suite the
verifier is looked up under `document.proof.cryptosuite` and an unknown
name throws `'Unsupported cryptosuite: ...'` before the underlying
`jsigs_verify` (the signature check) is ever invoked. -/
def jsigsVerifyDispatch (document : Document) (options : VerifyOptions) :
    Except Err VerifierSuite :=
  match options.suite with
  | some s => .ok s
  | none =>
    match verifers document.proof.cryptosuite with
    | some s => .ok s
    | none => .error (.unsupportedCryptosuite document.proof.cryptosuite)

/-- The disclosure (derivation) cryptosuites `derive_suite` can build
(src/lib/suites.js lines 237-254). -/
inductive DeriveSuiteTag where
  | bbs2023disclose
  | ecdsaSd2023disclose
  | sm2Sd2023disclose
deriving DecidableEq

/-- The three disclosure-capable cryptosuite names accepted by
`derive_suite`. -/
def sdNames : List String := ["bbs-2023", "ecdsa-sd-2023", "sm2-sd-2023"]

/-- The options of `deriveCredential` / `derive_suite`: only the input
credential's proof and an optional caller-supplied suite matter to the
dispatch. -/
structure DeriveOptions where
  verifiableCredential : Document
  suite : Option DeriveSuiteTag
deriving DecidableEq

/-- Embeds `derive_suite` (src/lib/suites.js lines 237-254): a switch
on `options.verifiableCredential.proof.cryptosuite` with cases
`bbs-2023`, `ecdsa-sd-2023`, `sm2-sd-2023`, falling through to
`'Unsupported cryptosuite: ...'`. -/
def derive_suite (options : DeriveOptions) : Except Err DeriveSuiteTag :=
  let name := options.verifiableCredential.proof.cryptosuite
  if name = "bbs-2023" then .ok .bbs2023disclose
  else if name = "ecdsa-sd-2023" then .ok .ecdsaSd2023disclose
  else if name = "sm2-sd-2023" then .ok .sm2Sd2023disclose
  else .error (.unsupportedCryptosuite name)

/-- Embeds the suite-resolution step of `deriveCredential`
(src/lib/browser.js lines 181-191): `if (!_options.suite)
_options.suite = suites.derive_suite(_options)`; an error here aborts
before `vc.derive` can produce or re-sign anything. -/
def deriveCredentialSuite (options : DeriveOptions) : Except Err DeriveSuiteTag :=
  match options.suite with
  | some s => .ok s
  | none => derive_suite options

/-- Modelled from the spec: the cryptosuite name carried by a *derived*
proof.  The code that attaches it lives in the repository's vc layer
(lib/vc/index.js, not under src) and the external disclosure
cryptosuites; spec section 4.4 states that "a derived proof's
cryptosuite name differs from the original issuance suite's signing
name and is not registered under the derivation table", i.e. it is not
one of the three names `derive_suite` accepts. -/
def isDerivedProofName (name : String) : Prop := name ∉ sdNames

/-- A credential as the issuance path reads and writes it: the `issuer`
field (absent until stamped) plus an abstract remainder standing for
all other fields. -/
structure Credential where
  issuer : Option Str
  rest : String
deriving DecidableEq

/-- A heap of credential objects: JavaScript object identity is
modelled by an address (index) into this store, so that the shallow
copy `_options = {...options}` sharing `options.credential` is
represented by both holding the same address. -/
abbrev CredStore := List Credential

/-- Dereference a credential address. -/
def readCred (σ : CredStore) (a : Nat) : Credential :=
  σ.getD a { issuer := none, rest := "" }

/-- The caller's options of `issueCredential` (src/lib/browser.js
lines 141-153): `credential` is a reference into the credential store. -/
structure IssueOptions where
  credential : Nat
  key : Option DidOrKey
  suite : Option SignSuite
  useSelectiveDisclosure : Bool
  mandatoryPointers : Option (List String)
deriving DecidableEq

/-- Embeds the part of `issueCredential` before `vc.issue`
(src/lib/browser.js lines 141-153): `_options = {...options}` (shallow
copy, `credential` alias shared), suite resolution through
`signer_suite` when no suite and a key are given, and the in-place
write `_options.credential.issuer = _options.suite.verificationMethod`.
Reading `.verificationMethod` with no suite resolved is a JavaScript
TypeError. -/
def issueCredentialPrep (σ : CredStore) (options : IssueOptions) :
    Except Err (CredStore × SignSuite) := do
  let suite ← match options.suite with
    | some s => .ok s
    | none =>
      match options.key with
      | some k =>
        signer_suite { key := k,
                       useSelectiveDisclosure := options.useSelectiveDisclosure,
                       mandatoryPointers := options.mandatoryPointers }
      | none => .error .typeError
  let c := readCred σ options.credential
  .ok (σ.set options.credential { c with issuer := suite.verificationMethod }, suite)

/-- The value of a `verifiableCredential` field as JavaScript holds it:
either a single credential object or an array of credentials. -/
inductive CredValue where
  | single (c : Credential)
  | many (cs : List Credential)
deriving DecidableEq

/-- A presentation as the presentation path reads and builds it. -/
structure Presentation where
  context : List String
  type : List String
  verifiableCredential : Option CredValue
  proof : Option Proof
deriving DecidableEq

/-- The caller's options of `signPresentation` (src/lib/browser.js
lines 221-243). -/
structure PresSignOptions where
  presentation : Option Presentation
  credential : Option CredValue
  key : Option DidOrKey
  suite : Option SignSuite
  challenge : Option Str
  useSelectiveDisclosure : Bool
  mandatoryPointers : Option (List String)
deriving DecidableEq

/-- The options as they stand when `vc.signPresentation` is invoked. -/
structure PresResolved where
  presentation : Option Presentation
  suite : Option SignSuite
  challenge : Str
deriving DecidableEq

/-- Embeds the part of `signPresentation` before `vc.signPresentation`
(src/lib/browser.js lines 221-243): when no presentation but a
credential is given, the presentation is built as
`{"@context": [credentials/v2], "type": ["VerifiablePresentation"],
"verifiableCredential": _options.credential}` — the credential value is
stored as-is, not wrapped in an array.  A missing challenge is replaced
by `generateRandomString(32)`, modelled by the `randomChallenge`
argument (external randomness). -/
def signPresentationPrep (options : PresSignOptions) (randomChallenge : Str) :
    Except Err PresResolved := do
  let pres :=
    match options.presentation, options.credential with
    | none, some c =>
      some { context := ["https://www.w3.org/ns/credentials/v2"],
             type := ["VerifiablePresentation"],
             verifiableCredential := some c,
             proof := none }
    | p, _ => p
  let suite ← match options.suite, options.key with
    | some s, _ => .ok (some s)
    | none, some k =>
      (signer_suite { key := k,
                      useSelectiveDisclosure := options.useSelectiveDisclosure,
                      mandatoryPointers := options.mandatoryPointers }).map some
    | none, none => .ok none
  let challenge := options.challenge.getD randomChallenge
  .ok { presentation := pres, suite := suite, challenge := challenge }

/-- The caller's options of `verifyPresentation` (src/lib/browser.js
lines 258-270). -/
structure PresVerifyOptions where
  presentation : Presentation
  challenge : Option Str
deriving DecidableEq

/-- Embeds the challenge-resolution step of `verifyPresentation`
(src/lib/browser.js lines 258-270): `if (!_options.challenge)
_options.challenge = presentation.proof.challenge` — the expected
challenge handed to `vc.verify` defaults to the challenge the
presentation's own proof declares.  Reading `.challenge` on an absent
proof is a JavaScript TypeError. -/
def verifyPresentationPrep (options : PresVerifyOptions) : Except Err (Option Str) :=
  match options.challenge with
  | some c => .ok (some c)
  | none =>
    match options.presentation.proof with
    | none => .error .typeError
    | some pr => .ok pr.challenge

/-- The shared context store of the document loader: an association
from URL to stored JSON-LD document (the document itself abstract). -/
abbrev CtxStore := List (Str × String)

/-- Lookup in the context store (`contexts[url]`). -/
def ctxLookup (σ : CtxStore) (url : Str) : Option String :=
  match σ.find? (fun e => e.1 = url) with
  | some e => some e.2
  | none => none

/-- Write into the context store (`contexts[url] = document`). -/
def ctxSet (σ : CtxStore) (url : Str) (d : String) : CtxStore :=
  (url, d) :: σ

/-- The DID document `documentLoader` synthesizes for a `did:key:` URL
(src/lib/browser.js lines 105-114). -/
structure DidDocument where
  context : List String
  id : Str
  controller : Str
  publicKeyMultibase : Str
  assertionMethod : List Str
  authentication : List Str
deriving DecidableEq

/-- What `documentLoader` returns: a stored/fetched context document or
a synthesized DID document. -/
inductive LoadedDoc where
  | ctxDoc (d : String)
  | didDoc (d : DidDocument)
deriving DecidableEq

/-- The `@context` list of a synthesized DID document:
`['https://www.w3.org/ns/did/v1']` extended with the exported key's own
context (external multikey `export`, modelled at the interface as the
multikey/v1 context for every family). -/
def didDocContext (_f : Family) : List String :=
  ["https://www.w3.org/ns/did/v1", "https://w3id.org/security/multikey/v1"]

/-- The bare key object `documentLoader` hands to `fromMultibase` for
a `did:key:` URL: `{ publicKeyMultibase }` alone. -/
def didKeyRecord (url : Str) : KeyRecord :=
  { id := none, controller := none,
    publicKeyMultibase := (parseDid url).publicKeyMultibase }

/-- Embeds `documentLoader` (src/lib/browser.js lines 85-128) with the
network fetch modelled as an oracle `fetch : url -> Option document`
(`none` for a failed request or unparsable body).  The three branches
of the source in order: cached context, `did:key:` synthesis (note the
inner `const contexts = [...]` shadows the store, which is not
written), and fetch-then-cache. -/
def documentLoader (fetch : Str → Option String) (σ : CtxStore) (url : Str) :
    Except Err (LoadedDoc × CtxStore) :=
  match ctxLookup σ url with
  | some d => .ok (.ctxDoc d, σ)
  | none =>
    if "did:key:".data.isPrefixOf url then
      let p := parseDid url
      match fromMultibase (didKeyRecord url) with
      | .error e => .error e
      | .ok kp =>
        .ok (.didDoc { context := didDocContext kp.family,
                       id := p.didAuthority,
                       controller := p.didAuthority,
                       publicKeyMultibase := p.publicKeyMultibase,
                       assertionMethod := [p.didAuthority],
                       authentication := [p.didAuthority] }, σ)
    else
      match fetch url with
      | some d => .ok (.ctxDoc d, ctxSet σ url d)
      | none => .error .documentResolutionFailure

/-! ## Helper lemmas -/

theorem splitOnChar_of_not_mem {sep : Char} {l : Str} (h : sep ∉ l) :
    splitOnChar sep l = [l] := by
  induction l with
  | nil => rfl
  | cons c cs ih =>
    have hc : ¬ c = sep := fun hc => h (hc ▸ List.mem_cons_self c cs)
    have hcs : sep ∉ cs := fun hm => h (List.mem_cons_of_mem _ hm)
    simp [splitOnChar, ih hcs, if_neg hc]

theorem readCred_set_self (σ : CredStore) (a : Nat) (v : Credential)
    (h : a < σ.length) : readCred (σ.set a v) a = v := by
  induction σ generalizing a with
  | nil => simp at h
  | cons x xs ih =>
    cases a with
    | zero => rfl
    | succ n => exact ih n (by simpa using h)

theorem readCred_set_ne (σ : CredStore) (a b : Nat) (v : Credential)
    (h : a ≠ b) : readCred (σ.set a v) b = readCred σ b := by
  induction σ generalizing a b with
  | nil => rfl
  | cons x xs ih =>
    cases a with
    | zero =>
      cases b with
      | zero => exact absurd rfl h
      | succ m => rfl
    | succ n =>
      cases b with
      | zero => rfl
      | succ m => exact ih n m (fun hnm => h (by rw [hnm]))

theorem bind_ok_eq {α β : Type} (a : α) (f : α → Except Err β) :
    (Except.ok a : Except Err α) >>= f = f a := rfl

theorem bind_error_eq {α β : Type} (e : Err) (f : α → Except Err β) :
    (Except.error e : Except Err α) >>= f = Except.error e := rfl

theorem fromMultibase_ok_fields (k : KeyRecord) (kp : KeyPair)
    (h : fromMultibase k = .ok kp) :
    kp.id = k.id ∧ kp.controller = k.controller ∧
      kp.publicKeyMultibase = k.publicKeyMultibase := by
  unfold fromMultibase get_suite at h
  cases hsu : suites (k.publicKeyMultibase.take 3) with
  | none => rw [hsu] at h; simp [Except.bind, bind] at h
  | some f =>
    rw [hsu] at h
    simp [Except.bind, bind] at h
    rw [← h]
    simp [suiteFrom]

theorem fromMultibase_error_shape (k : KeyRecord) (e : Err)
    (h : fromMultibase k = .error e) :
    e = .unsupportedMultikeyHeader (k.publicKeyMultibase.take 3) := by
  unfold fromMultibase get_suite at h
  cases hsu : suites (k.publicKeyMultibase.take 3) with
  | none =>
    rw [hsu] at h
    simp [Except.bind, bind] at h
    exact h.symm
  | some f =>
    rw [hsu] at h
    simp [Except.bind, bind] at h

theorem getKeyPair_didStr_eq (did : Str) :
    getKeyPair (.didStr did)
      = fromMultibase { id := some did,
                        controller := some (parseDid did).didAuthority,
                        publicKeyMultibase := (parseDid did).publicKeyMultibase } := rfl

theorem getKeyPair_keyObj_none_eq (k : KeyInput)
    (hp : k.publicKeyMultibase = none) :
    getKeyPair (.keyObj k)
      = fromMultibase { id := some k.id, controller := k.controller,
                        publicKeyMultibase := (parseDid k.id).publicKeyMultibase } := by
  simp [getKeyPair, hp]

theorem getKeyPair_keyObj_some_eq (k : KeyInput) (pkm : Str)
    (hp : k.publicKeyMultibase = some pkm) :
    getKeyPair (.keyObj k)
      = if pkm = [] then
          fromMultibase { id := some k.id, controller := k.controller,
                          publicKeyMultibase := (parseDid k.id).publicKeyMultibase }
        else if pkm = (parseDid k.id).publicKeyMultibase then
          fromMultibase { id := some k.id, controller := k.controller,
                          publicKeyMultibase := pkm }
        else .error .mismatchedDid := by
  simp [getKeyPair, hp]

theorem getKeyPair_keyObj_id (k : KeyInput) (kp : KeyPair)
    (h : getKeyPair (.keyObj k) = .ok kp) : kp.id = some k.id := by
  cases hp : k.publicKeyMultibase with
  | none =>
    rw [getKeyPair_keyObj_none_eq k hp] at h
    exact (fromMultibase_ok_fields _ _ h).1
  | some pkm =>
    rw [getKeyPair_keyObj_some_eq k pkm hp] at h
    by_cases h0 : pkm = []
    · rw [if_pos h0] at h
      exact (fromMultibase_ok_fields _ _ h).1
    · rw [if_neg h0] at h
      by_cases hq : pkm = (parseDid k.id).publicKeyMultibase
      · rw [if_pos hq] at h
        exact (fromMultibase_ok_fields _ _ h).1
      · rw [if_neg hq] at h
        exact absurd h (by simp)

theorem signer_suite_vm (k : KeyInput) (options : SignOptions) (s : SignSuite)
    (hk : options.key = .keyObj k) (h : signer_suite options = .ok s) :
    s.verificationMethod = some k.id := by
  unfold signer_suite at h
  rw [hk] at h
  cases hg : getKeyPair (.keyObj k) with
  | error e => simp only [hg, bind_error_eq] at h; exact Except.noConfusion h
  | ok kp =>
    simp only [hg, bind_ok_eq] at h
    have hid : kp.id = some k.id := getKeyPair_keyObj_id k kp hg
    cases hf : get_suite { id := kp.id, controller := kp.controller,
                           publicKeyMultibase := kp.publicKeyMultibase } with
    | error e => simp only [hf, bind_error_eq] at h; exact Except.noConfusion h
    | ok f =>
      simp only [hf, bind_ok_eq] at h
      cases hc : suiteCryptosuite f options with
      | error e => simp only [hc, bind_error_eq] at h; exact Except.noConfusion h
      | ok cs =>
        simp only [hc, bind_ok_eq, Except.ok.injEq] at h
        rw [← h, hid]

theorem verifers_eq_none_of_not_mem (n : String) (h : n ∉ verifierNames) :
    verifers n = none := by
  simp only [verifierNames, List.mem_cons, List.not_mem_nil, or_false,
    not_or] at h
  obtain ⟨h1, h2, h3, h4, h5, h6⟩ := h
  simp [verifers, h1, h2, h3, h4, h5, h6]

/-! ## Claim theorems -/

/-- C1 (code_bug evaluation): on the current src/lib/suites.js the
cryptosuite selectors test `options.useSelectiveDisclosure`, a flag no
caller in the repository ever sets; the repository's own tests, README
and sample drive selective disclosure purely through
`mandatoryPointers`.  At the tests' own inputs (mandatoryPointers
supplied, flag absent): the BLS12-381 suite resolution throws, the
P-256 resolution silently yields the plain ecdsa-2019 suite, and the
Ed25519 selector does not throw although a selective-disclosure option
is supplied. -/
theorem sd_flag_never_set_breaks_sd_issuance :
    signer_suite { key := .keyObj { id := "did:key:zUC7ab".data, controller := none,
                                    publicKeyMultibase := some "zUC7ab".data },
                   useSelectiveDisclosure := false,
                   mandatoryPointers := some ["/issuanceDate", "/issuer"] }
      = .error .blsRequiresSelectiveDisclosure
    ∧ signer_suite { key := .keyObj { id := "did:key:zDn1ab".data, controller := none,
                                      publicKeyMultibase := some "zDn1ab".data },
                     useSelectiveDisclosure := false,
                     mandatoryPointers := some ["/issuanceDate", "/issuer"] }
      = .ok { verificationMethod := some "did:key:zDn1ab".data,
              cryptosuite := .ecdsa2019sign }
    ∧ suiteCryptosuite .ed25519
        { key := .keyObj { id := "did:key:z6Mkab".data, controller := none,
                           publicKeyMultibase := some "z6Mkab".data },
          useSelectiveDisclosure := false,
          mandatoryPointers := some ["/issuanceDate", "/issuer"] }
      = .ok .eddsa2022sign :=
  ⟨rfl, rfl, rfl⟩

/-- C2: a document whose `proof.cryptosuite` is not one of the six
registered names makes the overridden `jsigs.verify` throw
`UnsupportedCryptosuite` during suite resolution, before the underlying
signature check; no default verifier is ever selected. -/
theorem verify_fails_closed_on_unknown_cryptosuite (doc : Document)
    (h : doc.proof.cryptosuite ∉ verifierNames) :
    jsigsVerifyDispatch doc { suite := none }
      = .error (.unsupportedCryptosuite doc.proof.cryptosuite)
    ∧ ∀ v, jsigsVerifyDispatch doc { suite := none } ≠ .ok v := by
  have hv := verifers_eq_none_of_not_mem doc.proof.cryptosuite h
  refine ⟨?_, ?_⟩
  · simp [jsigsVerifyDispatch, hv]
  · intro v
    simp [jsigsVerifyDispatch, hv]

/-- C2 witness at the unregistered name `ecdsa-rdfc-2019`. -/
theorem verify_fails_closed_witness :
    jsigsVerifyDispatch { proof := { cryptosuite := "ecdsa-rdfc-2019", challenge := none } }
        { suite := none }
      = .error (.unsupportedCryptosuite "ecdsa-rdfc-2019") :=
  (verify_fails_closed_on_unknown_cryptosuite
    { proof := { cryptosuite := "ecdsa-rdfc-2019", challenge := none } }
    (by decide)).1

/-- C3: with no caller-supplied suite, `deriveCredential` resolves its
suite through `derive_suite`, which throws `UnsupportedCryptosuite` for
every proof cryptosuite outside `bbs-2023` / `ecdsa-sd-2023` /
`sm2-sd-2023`, so no derived credential is produced and nothing is
re-signed; in particular (with the derived-proof naming modelled from
the spec by `isDerivedProofName`) a credential whose proof carries a
derived-verification suite name cannot be derived from again. -/
theorem derive_rejects_nondisclosure (options : DeriveOptions)
    (hs : options.suite = none) :
    (options.verifiableCredential.proof.cryptosuite ∉ sdNames →
      deriveCredentialSuite options
        = .error (.unsupportedCryptosuite options.verifiableCredential.proof.cryptosuite))
    ∧ (isDerivedProofName options.verifiableCredential.proof.cryptosuite →
      deriveCredentialSuite options
        = .error (.unsupportedCryptosuite options.verifiableCredential.proof.cryptosuite)) := by
  have key : options.verifiableCredential.proof.cryptosuite ∉ sdNames →
      deriveCredentialSuite options
        = .error (.unsupportedCryptosuite options.verifiableCredential.proof.cryptosuite) := by
    intro h
    simp only [sdNames, List.mem_cons, List.not_mem_nil, or_false, not_or] at h
    obtain ⟨h1, h2, h3⟩ := h
    simp [deriveCredentialSuite, hs, derive_suite, h1, h2, h3]
  exact ⟨key, fun h => key h⟩

/-- C3 witness: a plain ecdsa-2019 credential cannot be derived from. -/
theorem derive_rejects_nondisclosure_witness :
    deriveCredentialSuite
        { verifiableCredential := { proof := { cryptosuite := "ecdsa-2019", challenge := none } },
          suite := none }
      = .error (.unsupportedCryptosuite "ecdsa-2019") :=
  (derive_rejects_nondisclosure
    { verifiableCredential := { proof := { cryptosuite := "ecdsa-2019", challenge := none } },
      suite := none } rfl).1 (by decide)

/-- C4: for a credential and key accepted by `issueCredential`, the
pre-issue phase stamps the caller's credential object — through the
shared reference of the shallow-copied options — with
`issuer := suite.verificationMethod`, which is the key's DID, no matter
what issuer the caller pre-set; every other credential object in the
store is untouched. -/
theorem issueCredential_stamps_issuer (σ : CredStore) (options : IssueOptions)
    (k : KeyInput) (out : CredStore × SignSuite)
    (ha : options.credential < σ.length)
    (hk : options.key = some (.keyObj k))
    (hs : options.suite = none)
    (hok : issueCredentialPrep σ options = .ok out) :
    (readCred out.1 options.credential).issuer = out.2.verificationMethod
    ∧ out.2.verificationMethod = some k.id
    ∧ ∀ a, a ≠ options.credential → readCred out.1 a = readCred σ a := by
  simp only [issueCredentialPrep, hs, hk] at hok
  cases hss : signer_suite { key := .keyObj k,
                             useSelectiveDisclosure := options.useSelectiveDisclosure,
                             mandatoryPointers := options.mandatoryPointers } with
  | error e =>
    simp only [hss, bind_error_eq] at hok
    exact Except.noConfusion hok
  | ok s =>
    simp only [hss, bind_ok_eq, Except.ok.injEq] at hok
    have hvm : s.verificationMethod = some k.id := signer_suite_vm k _ s rfl hss
    rw [← hok]
    refine ⟨?_, hvm, ?_⟩
    · rw [readCred_set_self σ options.credential _ ha]
    · intro a hne
      exact readCred_set_ne σ options.credential a _ (fun hx => hne hx.symm)

/-- C4 witness: a concrete one-object store whose credential pre-sets
`issuer := "x"`; issuing with a P-256 key object overwrites it in
place with the key's DID. -/
theorem issueCredential_stamps_issuer_witness :
    (readCred [{ issuer := some "did:key:zDn1ab".data, rest := "body" }] 0).issuer
      = SignSuite.verificationMethod { verificationMethod := some "did:key:zDn1ab".data,
                                       cryptosuite := .ecdsa2019sign }
    ∧ SignSuite.verificationMethod { verificationMethod := some "did:key:zDn1ab".data,
                                     cryptosuite := .ecdsa2019sign }
        = some "did:key:zDn1ab".data
    ∧ ∀ a, a ≠ 0 →
        readCred [{ issuer := some "did:key:zDn1ab".data, rest := "body" }] a
          = readCred [{ issuer := some "x".data, rest := "body" }] a :=
  issueCredential_stamps_issuer
    [{ issuer := some "x".data, rest := "body" }]
    { credential := 0,
      key := some (.keyObj { id := "did:key:zDn1ab".data, controller := none,
                             publicKeyMultibase := some "zDn1ab".data }),
      suite := none, useSelectiveDisclosure := false, mandatoryPointers := none }
    { id := "did:key:zDn1ab".data, controller := none,
      publicKeyMultibase := some "zDn1ab".data }
    ([{ issuer := some "did:key:zDn1ab".data, rest := "body" }],
     { verificationMethod := some "did:key:zDn1ab".data, cryptosuite := .ecdsa2019sign })
    (by decide) rfl rfl rfl

/-- C5 counterexample: `signPresentation`, given a bare credential and
no presentation, stores the credential value itself under
`verifiableCredential` — it does not wrap it in a one-element array, so
the claim's `{verifiableCredential: [credential]}` shape is not what
gets signed. -/
theorem signPresentation_no_array_wrap_cex :
    signPresentationPrep
        { presentation := none, credential := some (.single { issuer := none, rest := "subject" }),
          key := none, suite := none, challenge := none,
          useSelectiveDisclosure := false, mandatoryPointers := none } "R".data
      = .ok { presentation := some
                { context := ["https://www.w3.org/ns/credentials/v2"],
                  type := ["VerifiablePresentation"],
                  verifiableCredential := some (.single { issuer := none, rest := "subject" }),
                  proof := none },
              suite := none, challenge := "R".data }
    ∧ CredValue.single { issuer := none, rest := "subject" }
        ≠ CredValue.many [{ issuer := none, rest := "subject" }] :=
  ⟨rfl, by decide⟩

/-- C5 amended: the presentation built for a bare credential has type
`['VerifiablePresentation']` and carries the given credential value
as-is in `verifiableCredential` (no list wrapping). -/
theorem signPresentation_wraps_value_as_is (options : PresSignOptions)
    (c : CredValue) (rc : Str)
    (hp : options.presentation = none) (hc : options.credential = some c) :
    ∀ r, signPresentationPrep options rc = .ok r →
      r.presentation = some { context := ["https://www.w3.org/ns/credentials/v2"],
                              type := ["VerifiablePresentation"],
                              verifiableCredential := some c,
                              proof := none } := by
  intro r hr
  cases hos : options.suite with
  | some s =>
    simp only [signPresentationPrep, hp, hc, hos, bind_ok_eq, Except.ok.injEq] at hr
    rw [← hr]
  | none =>
    cases hok : options.key with
    | none =>
      simp only [signPresentationPrep, hp, hc, hos, hok, bind_ok_eq,
        Except.ok.injEq] at hr
      rw [← hr]
    | some k =>
      cases hss : signer_suite { key := k,
                                 useSelectiveDisclosure := options.useSelectiveDisclosure,
                                 mandatoryPointers := options.mandatoryPointers } with
      | error e =>
        simp only [signPresentationPrep, hp, hc, hos, hok, hss, Except.map,
          bind_error_eq] at hr
        exact Except.noConfusion hr
      | ok s =>
        simp only [signPresentationPrep, hp, hc, hos, hok, hss, Except.map,
          bind_ok_eq, Except.ok.injEq] at hr
        rw [← hr]

/-- C5 witness for the amended statement at a concrete bare credential. -/
theorem signPresentation_wraps_value_as_is_witness :
    PresResolved.presentation
        { presentation := some
            { context := ["https://www.w3.org/ns/credentials/v2"],
              type := ["VerifiablePresentation"],
              verifiableCredential := some (.single { issuer := none, rest := "s" }),
              proof := none },
          suite := none, challenge := "R".data }
      = some { context := ["https://www.w3.org/ns/credentials/v2"],
               type := ["VerifiablePresentation"],
               verifiableCredential := some (.single { issuer := none, rest := "s" }),
               proof := none } :=
  signPresentation_wraps_value_as_is
    { presentation := none, credential := some (.single { issuer := none, rest := "s" }),
      key := none, suite := none, challenge := none,
      useSelectiveDisclosure := false, mandatoryPointers := none }
    (.single { issuer := none, rest := "s" }) "R".data rfl rfl
    { presentation := some
        { context := ["https://www.w3.org/ns/credentials/v2"],
          type := ["VerifiablePresentation"],
          verifiableCredential := some (.single { issuer := none, rest := "s" }),
          proof := none },
      suite := none, challenge := "R".data } rfl

/-- C6 counterexample: `parseDid` performs no prefix validation and
cannot fail — on an input whose authority does not start with
`did:key:` it still returns a parsed result (here with an empty
multibase), and the eventual failure downstream is an
unsupported-multikey-header error, not `MalformedDid`. -/
theorem parseDid_returns_without_validation :
    parseDid "foo#bar".data
      = { didAuthority := "foo".data, keyIdFragment := some "bar".data,
          publicKeyMultibase := [] }
    ∧ getKeyPair (.didStr "foo#bar".data) = .error (.unsupportedMultikeyHeader []) :=
  ⟨by decide, rfl⟩

/-- C6 amended: `parseDid` never raises `MalformedDid`; for every input
(in particular one whose authority lacks the `did:key:` header) it
returns authority, optional fragment, and the authority minus its first
eight characters as `publicKeyMultibase`; a malformed DID string can
fail later only with an unsupported-multikey-header error from the key
constructor path. -/
theorem parseDid_no_validation (did : Str)
    (h : "did:key:".data.isPrefixOf ((splitOnChar '#' did).headD []) = false) :
    parseDid did
      = { didAuthority := (splitOnChar '#' did).headD [],
          keyIdFragment := (splitOnChar '#' did)[1]?,
          publicKeyMultibase := ((splitOnChar '#' did).headD []).drop 8 }
    ∧ ∀ e, getKeyPair (.didStr did) = .error e →
        ∃ hd, e = .unsupportedMultikeyHeader hd := by
  refine ⟨rfl, ?_⟩
  intro e he
  rw [getKeyPair_didStr_eq] at he
  exact ⟨_, fromMultibase_error_shape _ _ he⟩

/-- C6 witness for the amended statement at `foo#bar`. -/
theorem parseDid_no_validation_witness :
    parseDid "foo#bar".data
      = { didAuthority := (splitOnChar '#' "foo#bar".data).headD [],
          keyIdFragment := (splitOnChar '#' "foo#bar".data)[1]?,
          publicKeyMultibase := ((splitOnChar '#' "foo#bar".data).headD []).drop 8 } :=
  (parseDid_no_validation "foo#bar".data (by decide)).1

/-- C7 counterexample: a key object whose `publicKeyMultibase` is
present but empty — the empty string is *present* and *differs* from
the non-empty multibase embedded in `id`, so it is inside the claim's
scope — is not rejected: the source's falsy guard
`!key.publicKeyMultibase` treats it like an absent field, overwrites it
with the parsed multibase, and key material is constructed without any
`MismatchedKey` error. -/
theorem getKeyPair_empty_pkm_cex :
    some ([] : Str) ≠ some "zDn1ab".data
    ∧ getKeyPair (.keyObj { id := "did:key:zDn1ab".data, controller := none,
                            publicKeyMultibase := some [] })
        = .ok { family := .p256, id := some "did:key:zDn1ab".data,
                controller := none, publicKeyMultibase := "zDn1ab".data } :=
  ⟨by decide, rfl⟩

/-- C7 amended: a key object whose `publicKeyMultibase` is present,
non-empty and disagrees with the multibase embedded in its `id` makes
`getKeyPair` throw `'Mismatched DID'` before any key material is
constructed; on agreement, construction proceeds from exactly that
multibase.  (An empty field is falsy in JavaScript and is overwritten
with the embedded multibase instead, see the counterexample.) -/
theorem getKeyPair_checks_mismatch (k : KeyInput) (pkm : Str)
    (hp : k.publicKeyMultibase = some pkm) (h0 : pkm ≠ []) :
    (pkm ≠ (parseDid k.id).publicKeyMultibase →
      getKeyPair (.keyObj k) = .error .mismatchedDid)
    ∧ (pkm = (parseDid k.id).publicKeyMultibase →
      getKeyPair (.keyObj k)
        = fromMultibase { id := some k.id, controller := k.controller,
                          publicKeyMultibase := pkm }
      ∧ ∀ kp, getKeyPair (.keyObj k) = .ok kp → kp.publicKeyMultibase = pkm) := by
  refine ⟨?_, ?_⟩
  · intro hne
    rw [getKeyPair_keyObj_some_eq k pkm hp, if_neg h0, if_neg hne]
  · intro heq
    have hcall : getKeyPair (.keyObj k)
        = fromMultibase { id := some k.id, controller := k.controller,
                          publicKeyMultibase := pkm } := by
      rw [getKeyPair_keyObj_some_eq k pkm hp, if_neg h0, if_pos heq]
    refine ⟨hcall, ?_⟩
    intro kp hok
    rw [hcall] at hok
    exact (fromMultibase_ok_fields _ _ hok).2.2

/-- C7 witness: a concrete conflicting (non-empty) key object is
rejected. -/
theorem getKeyPair_checks_mismatch_witness :
    getKeyPair (.keyObj { id := "did:key:zDn1ab".data, controller := none,
                          publicKeyMultibase := some "zDn2ab".data })
      = .error .mismatchedDid :=
  (getKeyPair_checks_mismatch
    { id := "did:key:zDn1ab".data, controller := none,
      publicKeyMultibase := some "zDn2ab".data } "zDn2ab".data rfl
    (by decide)).1 (by decide)

/-- C8: for every multibase string with no `#`, parsing
`'did:key:' + m` returns `m` as `publicKeyMultibase` (with the whole
string as authority and no fragment): the identity codec round-trips. -/
theorem parseDid_encode_roundtrip (m : Str) (h : '#' ∉ m) :
    parseDid ("did:key:".data ++ m)
      = { didAuthority := "did:key:".data ++ m, keyIdFragment := none,
          publicKeyMultibase := m } := by
  have hnot : '#' ∉ "did:key:".data ++ m := by
    intro hc
    rcases List.mem_append.mp hc with h1 | h2
    · revert h1; decide
    · exact h h2
  have hs := splitOnChar_of_not_mem hnot
  have hd : ("did:key:".data ++ m).drop 8 = m := by
    have := List.drop_left "did:key:".data m
    rwa [(by decide : ("did:key:".data).length = 8)] at this
  simp only [parseDid]
  rw [hs]
  simp only [List.headD_cons, ParsedDid.mk.injEq]
  exact ⟨trivial, rfl, hd⟩

/-- C8 witness at the multibase `zDn1ab`. -/
theorem parseDid_encode_roundtrip_witness :
    parseDid ("did:key:".data ++ "zDn1ab".data)
      = { didAuthority := "did:key:".data ++ "zDn1ab".data, keyIdFragment := none,
          publicKeyMultibase := "zDn1ab".data } :=
  parseDid_encode_roundtrip "zDn1ab".data (by decide)

/-- C9: when `verifyPresentation` gets no challenge option, the
expected challenge passed on to verification is exactly the challenge
declared by the presentation's own proof. -/
theorem verifyPresentation_default_challenge (options : PresVerifyOptions)
    (pr : Proof) (hc : options.challenge = none)
    (hp : options.presentation.proof = some pr) :
    verifyPresentationPrep options = .ok pr.challenge := by
  simp [verifyPresentationPrep, hc, hp]

/-- C9 witness at a concrete presentation declaring challenge `abc`. -/
theorem verifyPresentation_default_challenge_witness :
    verifyPresentationPrep
        { presentation := { context := [], type := [], verifiableCredential := none,
                            proof := some { cryptosuite := "bbs-2023",
                                            challenge := some "abc".data } },
          challenge := none }
      = .ok (some "abc".data) :=
  verifyPresentation_default_challenge
    { presentation := { context := [], type := [], verifiableCredential := none,
                        proof := some { cryptosuite := "bbs-2023",
                                        challenge := some "abc".data } },
      challenge := none }
    { cryptosuite := "bbs-2023", challenge := some "abc".data } rfl rfl

/-- C10 counterexample: a non-cached `did:key:` URL whose multibase
carries an unregistered multikey header makes `documentLoader` throw
rather than return a synthesized DID document. -/
theorem documentLoader_didkey_can_throw :
    documentLoader (fun _ => none) [] "did:key:xyz".data
      = .error (.unsupportedMultikeyHeader "xyz".data) := rfl

/-- C10 amended: for a non-cached `did:key:` URL whose multibase
header is registered, `documentLoader` returns a synthesized DID
document (id, controller, assertionMethod and authentication all the
DID's authority) and leaves the context store unchanged; and whenever
a call returns a changed store, the URL was a non-`did:key:`,
non-cached one (the fetch branch). -/
theorem documentLoader_didkey_frame (fetch : Str → Option String)
    (σ : CtxStore) (url : Str) (f : Family)
    (hc : ctxLookup σ url = none)
    (hd : "did:key:".data.isPrefixOf url = true)
    (hf : suites ((parseDid url).publicKeyMultibase.take 3) = some f) :
    documentLoader fetch σ url
      = .ok (.didDoc { context := didDocContext f,
                       id := (parseDid url).didAuthority,
                       controller := (parseDid url).didAuthority,
                       publicKeyMultibase := (parseDid url).publicKeyMultibase,
                       assertionMethod := [(parseDid url).didAuthority],
                       authentication := [(parseDid url).didAuthority] }, σ)
    ∧ ∀ url' out, documentLoader fetch σ url' = .ok out → out.2 ≠ σ →
        ctxLookup σ url' = none ∧ "did:key:".data.isPrefixOf url' = false := by
  refine ⟨?_, ?_⟩
  · have hfm : fromMultibase (didKeyRecord url)
        = .ok (suiteFrom f (didKeyRecord url)) := by
      unfold fromMultibase get_suite didKeyRecord
      rw [hf]
      rfl
    simp only [documentLoader, hc]
    rw [if_pos hd]
    simp only [hfm]
    rfl
  · intro url' out hout hne
    cases hcu : ctxLookup σ url' with
    | some d =>
      simp only [documentLoader, hcu, Except.ok.injEq] at hout
      exact absurd (congrArg Prod.snd hout.symm) hne
    | none =>
      cases hdu : "did:key:".data.isPrefixOf url' with
      | true =>
        simp only [documentLoader, hcu] at hout
        rw [if_pos hdu] at hout
        cases hfm : fromMultibase (didKeyRecord url') with
        | error e =>
          simp only [hfm] at hout
          exact Except.noConfusion hout
        | ok kp =>
          simp only [hfm, Except.ok.injEq] at hout
          exact absurd (congrArg Prod.snd hout.symm) hne
      | false =>
        exact ⟨rfl, rfl⟩

/-- C10 witness for the amended statement at `did:key:zDn1ab` over the
empty store. -/
theorem documentLoader_didkey_frame_witness :
    documentLoader (fun _ => none) [] "did:key:zDn1ab".data
      = .ok (.didDoc { context := didDocContext .p256,
                       id := (parseDid "did:key:zDn1ab".data).didAuthority,
                       controller := (parseDid "did:key:zDn1ab".data).didAuthority,
                       publicKeyMultibase := (parseDid "did:key:zDn1ab".data).publicKeyMultibase,
                       assertionMethod := [(parseDid "did:key:zDn1ab".data).didAuthority],
                       authentication := [(parseDid "did:key:zDn1ab".data).didAuthority] }, []) :=
  (documentLoader_didkey_frame (fun _ => none) [] "did:key:zDn1ab".data .p256
    rfl (by decide) (by decide)).1

end DidKey
